import Mathlib

/-!
# Verification of the starry-math transform & geometry subsystem

Shallow embedding of the library's `Vector2/3/4`, `Quaternion`, `Euler`,
`Matrix4`, `Box3` and `Ray` operations over exact real arithmetic, together
with proofs about the rotation conversions, matrix inversion, projection
guards and the ray geometry algorithms.

Machine numbers are modelled as real numbers; the IEEE-754 special values
that `Ray.intersectBox` relies on (division by zero producing infinities,
NaN-absorbing comparisons) are modelled explicitly by the `JSNum` type.
-/

open Real

open scoped Classical

noncomputable section

namespace StarryMath

/-- `clamp` from `MathUtils`: clamps `num` into `[lo, hi]`. -/
def clamp (num lo hi : ℝ) : ℝ :=
  if num < lo then lo else if num > hi then hi else num

/-- `Math.atan2 y x` (for non-NaN arguments, zero modelled as `+0`). -/
def atan2 (y x : ℝ) : ℝ :=
  if 0 < x then arctan (y / x)
  else if x < 0 then (if 0 ≤ y then arctan (y / x) + π else arctan (y / x) - π)
  else if 0 < y then π / 2 else if y < 0 then -(π / 2) else 0

/-- The 6 rotation orders of `Euler`. -/
inductive EulerOrder where
  | XYZ | YZX | ZXY | XZY | YXZ | ZYX
  deriving DecidableEq

/-- `Vector2`: a 2D vector. -/
structure Vector2 where
  x : ℝ
  y : ℝ

/-- `Vector3`: a 3D vector. -/
structure Vector3 where
  x : ℝ
  y : ℝ
  z : ℝ

/-- `Vector4`: a 4D vector. -/
structure Vector4 where
  x : ℝ
  y : ℝ
  z : ℝ
  w : ℝ

/-- `Euler`: three angles (radians) plus a rotation order. -/
structure Euler where
  x : ℝ
  y : ℝ
  z : ℝ
  order : EulerOrder

/-- `Quaternion`: x, y, z vector part and w scalar part. -/
structure Quaternion where
  x : ℝ
  y : ℝ
  z : ℝ
  w : ℝ

namespace Vector2

/-- `Vector2.lengthSquared`. -/
def lengthSquared (v : Vector2) : ℝ := v.x ^ 2 + v.y ^ 2

/-- `Vector2.length`. -/
def length (v : Vector2) : ℝ := Real.sqrt v.lengthSquared

/-- `Vector2.unit`: normalizes in place; the zero length is replaced by 1
via the `|| 1` guard in the source. -/
def unit (v : Vector2) : Vector2 :=
  let l := if v.length = 0 then 1 else v.length
  ⟨v.x / l, v.y / l⟩

end Vector2

namespace Vector3

/-- `Vector3.lengthSquared`. -/
def lengthSquared (v : Vector3) : ℝ := v.x ^ 2 + v.y ^ 2 + v.z ^ 2

/-- `Vector3.length`. -/
def length (v : Vector3) : ℝ := Real.sqrt v.lengthSquared

/-- `Vector3.distanceToSquared`. -/
def distanceToSquared (v vector : Vector3) : ℝ :=
  (vector.x - v.x) ^ 2 + (vector.y - v.y) ^ 2 + (vector.z - v.z) ^ 2

/-- `Vector3.distanceTo`. -/
def distanceTo (v vector : Vector3) : ℝ := Real.sqrt (v.distanceToSquared vector)

/-- `Vector3.unit`: normalizes in place; the zero length is replaced by 1
via the `|| 1` guard in the source. -/
def unit (v : Vector3) : Vector3 :=
  let l := if v.length = 0 then 1 else v.length
  ⟨v.x / l, v.y / l, v.z / l⟩

/-- `Vector3.dot`. -/
def dot (v vector : Vector3) : ℝ := v.x * vector.x + v.y * vector.y + v.z * vector.z

/-- `Vector3.add`. -/
def add (v vector : Vector3) : Vector3 := ⟨v.x + vector.x, v.y + vector.y, v.z + vector.z⟩

/-- `Vector3.subtract`. -/
def subtract (v vector : Vector3) : Vector3 := ⟨v.x - vector.x, v.y - vector.y, v.z - vector.z⟩

/-- `Vector3.multiplyScalar`. -/
def multiplyScalar (v : Vector3) (num : ℝ) : Vector3 := ⟨v.x * num, v.y * num, v.z * num⟩

/-- `Vector3.crossVectors`. -/
def crossVectors (a b : Vector3) : Vector3 :=
  ⟨a.y * b.z - a.z * b.y, a.z * b.x - a.x * b.z, a.x * b.y - a.y * b.x⟩

end Vector3

namespace Vector4

/-- `Vector4.lengthSquare`. -/
def lengthSquare (v : Vector4) : ℝ := v.x ^ 2 + v.y ^ 2 + v.z ^ 2 + v.w ^ 2

/-- `Vector4.length`. -/
def length (v : Vector4) : ℝ := Real.sqrt v.lengthSquare

/-- `Vector4.unit`: divides every component by the length, with no guard
against a zero length (unlike `Vector2.unit`/`Vector3.unit`). -/
def unit (v : Vector4) : Vector4 :=
  ⟨v.x / v.length, v.y / v.length, v.z / v.length, v.w / v.length⟩

end Vector4

/-- `Quaternion.setFromEuler`: half-angle sine/cosine products with the
order-specific sign pattern of the source. -/
def Quaternion.setFromEuler (euler : Euler) : Quaternion :=
  let c1 := Real.cos (euler.x / 2)
  let c2 := Real.cos (euler.y / 2)
  let c3 := Real.cos (euler.z / 2)
  let s1 := Real.sin (euler.x / 2)
  let s2 := Real.sin (euler.y / 2)
  let s3 := Real.sin (euler.z / 2)
  match euler.order with
  | .XYZ =>
      ⟨s1 * c2 * c3 + c1 * s2 * s3, c1 * s2 * c3 - s1 * c2 * s3,
       c1 * c2 * s3 + s1 * s2 * c3, c1 * c2 * c3 - s1 * s2 * s3⟩
  | .YXZ =>
      ⟨s1 * c2 * c3 + c1 * s2 * s3, c1 * s2 * c3 - s1 * c2 * s3,
       c1 * c2 * s3 - s1 * s2 * c3, c1 * c2 * c3 + s1 * s2 * s3⟩
  | .ZXY =>
      ⟨s1 * c2 * c3 - c1 * s2 * s3, c1 * s2 * c3 + s1 * c2 * s3,
       c1 * c2 * s3 + s1 * s2 * c3, c1 * c2 * c3 - s1 * s2 * s3⟩
  | .ZYX =>
      ⟨s1 * c2 * c3 - c1 * s2 * s3, c1 * s2 * c3 + s1 * c2 * s3,
       c1 * c2 * s3 - s1 * s2 * c3, c1 * c2 * c3 + s1 * s2 * s3⟩
  | .YZX =>
      ⟨s1 * c2 * c3 + c1 * s2 * s3, c1 * s2 * c3 + s1 * c2 * s3,
       c1 * c2 * s3 - s1 * s2 * c3, c1 * c2 * c3 - s1 * s2 * s3⟩
  | .XZY =>
      ⟨s1 * c2 * c3 - c1 * s2 * s3, c1 * s2 * c3 - s1 * c2 * s3,
       c1 * c2 * s3 + s1 * s2 * c3, c1 * c2 * c3 + s1 * s2 * s3⟩

/-- `Matrix4`: 16 values in column-major order (`e0` … `e15` mirror the
`_value[0]` … `_value[15]` slots of the source array). -/
structure Matrix4 where
  e0 : ℝ
  e1 : ℝ
  e2 : ℝ
  e3 : ℝ
  e4 : ℝ
  e5 : ℝ
  e6 : ℝ
  e7 : ℝ
  e8 : ℝ
  e9 : ℝ
  e10 : ℝ
  e11 : ℝ
  e12 : ℝ
  e13 : ℝ
  e14 : ℝ
  e15 : ℝ

namespace Matrix4

/-- `Matrix4.identity` / the default construction state. -/
def identity : Matrix4 :=
  ⟨1, 0, 0, 0, 0, 1, 0, 0, 0, 0, 1, 0, 0, 0, 0, 1⟩

/-- `Matrix4.compose`: builds the affine transform from position, Euler
rotation (converted to a quaternion internally) and scale. -/
def compose (position : Vector3) (euler : Euler) (scale : Vector3) : Matrix4 :=
  let q := Quaternion.setFromEuler euler
  let x := q.x
  let y := q.y
  let z := q.z
  let w := q.w
  let x2 := x + x
  let y2 := y + y
  let z2 := z + z
  let xx := x * x2
  let xy := x * y2
  let xz := x * z2
  let yy := y * y2
  let yz := y * z2
  let zz := z * z2
  let wx := w * x2
  let wy := w * y2
  let wz := w * z2
  let sx := scale.x
  let sy := scale.y
  let sz := scale.z
  ⟨(1 - (yy + zz)) * sx, (xy + wz) * sx, (xz - wy) * sx, 0,
   (xy - wz) * sy, (1 - (xx + zz)) * sy, (yz + wx) * sy, 0,
   (xz + wy) * sz, (yz - wx) * sz, (1 - (xx + yy)) * sz, 0,
   position.x, position.y, position.z, 1⟩

/-- `Matrix4.multiplyMatrices`: the receiver becomes `a * b` (standard 4x4
product in column-major indexing). -/
def multiplyMatrices (a b : Matrix4) : Matrix4 :=
  let a11 := a.e0
  let a12 := a.e4
  let a13 := a.e8
  let a14 := a.e12
  let a21 := a.e1
  let a22 := a.e5
  let a23 := a.e9
  let a24 := a.e13
  let a31 := a.e2
  let a32 := a.e6
  let a33 := a.e10
  let a34 := a.e14
  let a41 := a.e3
  let a42 := a.e7
  let a43 := a.e11
  let a44 := a.e15
  let b11 := b.e0
  let b12 := b.e4
  let b13 := b.e8
  let b14 := b.e12
  let b21 := b.e1
  let b22 := b.e5
  let b23 := b.e9
  let b24 := b.e13
  let b31 := b.e2
  let b32 := b.e6
  let b33 := b.e10
  let b34 := b.e14
  let b41 := b.e3
  let b42 := b.e7
  let b43 := b.e11
  let b44 := b.e15
  ⟨a11 * b11 + a12 * b21 + a13 * b31 + a14 * b41,
   a21 * b11 + a22 * b21 + a23 * b31 + a24 * b41,
   a31 * b11 + a32 * b21 + a33 * b31 + a34 * b41,
   a41 * b11 + a42 * b21 + a43 * b31 + a44 * b41,
   a11 * b12 + a12 * b22 + a13 * b32 + a14 * b42,
   a21 * b12 + a22 * b22 + a23 * b32 + a24 * b42,
   a31 * b12 + a32 * b22 + a33 * b32 + a34 * b42,
   a41 * b12 + a42 * b22 + a43 * b32 + a44 * b42,
   a11 * b13 + a12 * b23 + a13 * b33 + a14 * b43,
   a21 * b13 + a22 * b23 + a23 * b33 + a24 * b43,
   a31 * b13 + a32 * b23 + a33 * b33 + a34 * b43,
   a41 * b13 + a42 * b23 + a43 * b33 + a44 * b43,
   a11 * b14 + a12 * b24 + a13 * b34 + a14 * b44,
   a21 * b14 + a22 * b24 + a23 * b34 + a24 * b44,
   a31 * b14 + a32 * b24 + a33 * b34 + a34 * b44,
   a41 * b14 + a42 * b24 + a43 * b34 + a44 * b44⟩

/-- `Matrix4.multiply`: `this = this * other`. -/
def multiply (m other : Matrix4) : Matrix4 := multiplyMatrices m other

/-- `Matrix4.determinant`: cofactor expansion along the last row, exactly
as written in the source. -/
def determinant (m : Matrix4) : ℝ :=
  let n11 := m.e0
  let n12 := m.e4
  let n13 := m.e8
  let n14 := m.e12
  let n21 := m.e1
  let n22 := m.e5
  let n23 := m.e9
  let n24 := m.e13
  let n31 := m.e2
  let n32 := m.e6
  let n33 := m.e10
  let n34 := m.e14
  let n41 := m.e3
  let n42 := m.e7
  let n43 := m.e11
  let n44 := m.e15
  n41 * (n14 * n23 * n32 - n13 * n24 * n32 - n14 * n22 * n33
      + n12 * n24 * n33 + n13 * n22 * n34 - n12 * n23 * n34)
    + n42 * (n11 * n23 * n34 - n11 * n24 * n33 + n14 * n21 * n33
      - n13 * n21 * n34 + n13 * n24 * n31 - n14 * n23 * n31)
    + n43 * (n11 * n24 * n32 - n11 * n22 * n34 - n14 * n21 * n32
      + n12 * n21 * n34 + n14 * n22 * n31 - n12 * n24 * n31)
    + n44 * (-(n13 * n22 * n31) - n11 * n23 * n32 + n11 * n22 * n33
      + n13 * n21 * n32 - n12 * n21 * n33 + n12 * n23 * n31)

/-- The 16 cofactor ("adjugate") values `inv[0]` … `inv[15]` computed by
`Matrix4.invert`, as a matrix. -/
def adjugate (m : Matrix4) : Matrix4 :=
  ⟨m.e5 * m.e10 * m.e15 - m.e5 * m.e11 * m.e14 - m.e9 * m.e6 * m.e15
      + m.e9 * m.e7 * m.e14 + m.e13 * m.e6 * m.e11 - m.e13 * m.e7 * m.e10,
   -(m.e1 * m.e10 * m.e15) + m.e1 * m.e11 * m.e14 + m.e9 * m.e2 * m.e15
      - m.e9 * m.e3 * m.e14 - m.e13 * m.e2 * m.e11 + m.e13 * m.e3 * m.e10,
   m.e1 * m.e6 * m.e15 - m.e1 * m.e7 * m.e14 - m.e5 * m.e2 * m.e15
      + m.e5 * m.e3 * m.e14 + m.e13 * m.e2 * m.e7 - m.e13 * m.e3 * m.e6,
   -(m.e1 * m.e6 * m.e11) + m.e1 * m.e7 * m.e10 + m.e5 * m.e2 * m.e11
      - m.e5 * m.e3 * m.e10 - m.e9 * m.e2 * m.e7 + m.e9 * m.e3 * m.e6,
   -(m.e4 * m.e10 * m.e15) + m.e4 * m.e11 * m.e14 + m.e8 * m.e6 * m.e15
      - m.e8 * m.e7 * m.e14 - m.e12 * m.e6 * m.e11 + m.e12 * m.e7 * m.e10,
   m.e0 * m.e10 * m.e15 - m.e0 * m.e11 * m.e14 - m.e8 * m.e2 * m.e15
      + m.e8 * m.e3 * m.e14 + m.e12 * m.e2 * m.e11 - m.e12 * m.e3 * m.e10,
   -(m.e0 * m.e6 * m.e15) + m.e0 * m.e7 * m.e14 + m.e4 * m.e2 * m.e15
      - m.e4 * m.e3 * m.e14 - m.e12 * m.e2 * m.e7 + m.e12 * m.e3 * m.e6,
   m.e0 * m.e6 * m.e11 - m.e0 * m.e7 * m.e10 - m.e4 * m.e2 * m.e11
      + m.e4 * m.e3 * m.e10 + m.e8 * m.e2 * m.e7 - m.e8 * m.e3 * m.e6,
   m.e4 * m.e9 * m.e15 - m.e4 * m.e11 * m.e13 - m.e8 * m.e5 * m.e15
      + m.e8 * m.e7 * m.e13 + m.e12 * m.e5 * m.e11 - m.e12 * m.e7 * m.e9,
   -(m.e0 * m.e9 * m.e15) + m.e0 * m.e11 * m.e13 + m.e8 * m.e1 * m.e15
      - m.e8 * m.e3 * m.e13 - m.e12 * m.e1 * m.e11 + m.e12 * m.e3 * m.e9,
   m.e0 * m.e5 * m.e15 - m.e0 * m.e7 * m.e13 - m.e4 * m.e1 * m.e15
      + m.e4 * m.e3 * m.e13 + m.e12 * m.e1 * m.e7 - m.e12 * m.e3 * m.e5,
   -(m.e0 * m.e5 * m.e11) + m.e0 * m.e7 * m.e9 + m.e4 * m.e1 * m.e11
      - m.e4 * m.e3 * m.e9 - m.e8 * m.e1 * m.e7 + m.e8 * m.e3 * m.e5,
   -(m.e4 * m.e9 * m.e14) + m.e4 * m.e10 * m.e13 + m.e8 * m.e5 * m.e14
      - m.e8 * m.e6 * m.e13 - m.e12 * m.e5 * m.e10 + m.e12 * m.e6 * m.e9,
   m.e0 * m.e9 * m.e14 - m.e0 * m.e10 * m.e13 - m.e8 * m.e1 * m.e14
      + m.e8 * m.e2 * m.e13 + m.e12 * m.e1 * m.e10 - m.e12 * m.e2 * m.e9,
   -(m.e0 * m.e5 * m.e14) + m.e0 * m.e6 * m.e13 + m.e4 * m.e1 * m.e14
      - m.e4 * m.e2 * m.e13 - m.e12 * m.e1 * m.e6 + m.e12 * m.e2 * m.e5,
   m.e0 * m.e5 * m.e10 - m.e0 * m.e6 * m.e9 - m.e4 * m.e1 * m.e10
      + m.e4 * m.e2 * m.e9 + m.e8 * m.e1 * m.e6 - m.e8 * m.e2 * m.e5⟩

/-- The determinant as computed inside `Matrix4.invert`
(`s[0]*inv[0] + s[1]*inv[4] + s[2]*inv[8] + s[3]*inv[12]`). -/
def invertDet (m : Matrix4) : ℝ :=
  m.e0 * (adjugate m).e0 + m.e1 * (adjugate m).e4
    + m.e2 * (adjugate m).e8 + m.e3 * (adjugate m).e12

/-- Scales every element of a matrix by a scalar. -/
def scaleElements (m : Matrix4) (k : ℝ) : Matrix4 :=
  ⟨m.e0 * k, m.e1 * k, m.e2 * k, m.e3 * k, m.e4 * k, m.e5 * k, m.e6 * k, m.e7 * k,
   m.e8 * k, m.e9 * k, m.e10 * k, m.e11 * k, m.e12 * k, m.e13 * k, m.e14 * k, m.e15 * k⟩

/-- `Matrix4.invert`: cofactor/adjugate inverse; if the computed
determinant is exactly zero the matrix is returned unchanged. -/
def invert (m : Matrix4) : Matrix4 :=
  if invertDet m = 0 then m else scaleElements (adjugate m) (1 / invertDet m)

/-- `Matrix4.ortho`: orthographic projection with the degenerate-input
guard returning the matrix unchanged. -/
def ortho (m : Matrix4) (left right bottom top near far : ℝ) : Matrix4 :=
  if left = right ∨ bottom = top ∨ near = far then m
  else
    let rw := 1 / (right - left)
    let rh := 1 / (top - bottom)
    let rd := 1 / (far - near)
    ⟨2 * rw, 0, 0, 0, 0, 2 * rh, 0, 0, 0, 0, -2 * rd, 0,
     -(right + left) * rw, -(top + bottom) * rh, -(far + near) * rd, 1⟩

/-- `Matrix4.frustum`: frustum projection with the degenerate-input guards
returning the matrix unchanged. -/
def frustum (m : Matrix4) (left right bottom top near far : ℝ) : Matrix4 :=
  if left = right ∨ top = bottom ∨ near = far then m
  else if near ≤ 0 then m
  else if far ≤ 0 then m
  else
    let rw := 1 / (right - left)
    let rh := 1 / (top - bottom)
    let rd := 1 / (far - near)
    ⟨2 * near * rw, 0, 0, 0, 0, 2 * near * rh, 0, 0,
     (right + left) * rw, (top + bottom) * rh, -(far + near) * rd, -1,
     0, 0, -2 * near * far * rd, 0⟩

/-- `Matrix4.perspective`: perspective projection (fov in degrees) with the
degenerate-input guards returning the matrix unchanged. -/
def perspective (m : Matrix4) (fov aspect near far : ℝ) : Matrix4 :=
  if near = far ∨ aspect = 0 then m
  else if near ≤ 0 then m
  else if far ≤ 0 then m
  else
    let fovRad := π * fov / 180 / 2
    let s := Real.sin fovRad
    if s = 0 then m
    else
      let rd := 1 / (far - near)
      let ct := Real.cos fovRad / s
      ⟨ct / aspect, 0, 0, 0, 0, ct, 0, 0,
       0, 0, -(far + near) * rd, -1, 0, 0, -2 * near * far * rd, 0⟩

end Matrix4

/-- `Euler.setFromRotationMatrix`: extracts the three angles from the
upper-left 3x3 block of `m`, by the order-specific formula; the order of
the receiver is kept.  `m11 = e0, m12 = e4, m13 = e8, m21 = e1, m22 = e5,
m23 = e9, m31 = e2, m32 = e6, m33 = e10`. -/
def Euler.setFromRotationMatrix (e : Euler) (m : Matrix4) : Euler :=
  let m11 := m.e0
  let m12 := m.e4
  let m13 := m.e8
  let m21 := m.e1
  let m22 := m.e5
  let m23 := m.e9
  let m31 := m.e2
  let m32 := m.e6
  let m33 := m.e10
  match e.order with
  | .XYZ =>
      if |m13| < 0.9999999 then
        ⟨atan2 (-m23) m33, arcsin (clamp m13 (-1) 1), atan2 (-m12) m11, e.order⟩
      else
        ⟨atan2 m32 m22, arcsin (clamp m13 (-1) 1), 0, e.order⟩
  | .YXZ =>
      if |m23| < 0.9999999 then
        ⟨arcsin (-clamp m23 (-1) 1), atan2 m13 m33, atan2 m21 m22, e.order⟩
      else
        ⟨arcsin (-clamp m23 (-1) 1), atan2 (-m31) m11, 0, e.order⟩
  | .ZXY =>
      if |m32| < 0.9999999 then
        ⟨arcsin (clamp m32 (-1) 1), atan2 (-m31) m33, atan2 (-m12) m22, e.order⟩
      else
        ⟨arcsin (clamp m32 (-1) 1), 0, atan2 m21 m11, e.order⟩
  | .ZYX =>
      if |m31| < 0.9999999 then
        ⟨atan2 m32 m33, arcsin (-clamp m31 (-1) 1), atan2 m21 m11, e.order⟩
      else
        ⟨0, arcsin (-clamp m31 (-1) 1), atan2 (-m12) m22, e.order⟩
  | .YZX =>
      if |m21| < 0.9999999 then
        ⟨atan2 (-m23) m22, atan2 (-m31) m11, arcsin (clamp m21 (-1) 1), e.order⟩
      else
        ⟨0, atan2 m13 m33, arcsin (clamp m21 (-1) 1), e.order⟩
  | .XZY =>
      if |m12| < 0.9999999 then
        ⟨atan2 m32 m22, atan2 m13 m11, arcsin (-clamp m12 (-1) 1), e.order⟩
      else
        ⟨atan2 (-m23) m33, 0, arcsin (-clamp m12 (-1) 1), e.order⟩

/-- The result record of `Matrix4.decompose`: the three output objects plus
the receiver matrix as it is left after the call (its storage is mutated by
the in-place column scaling). -/
structure DecomposeResult where
  position : Vector3
  euler : Euler
  scale : Vector3
  receiver : Matrix4

/-- `Matrix4.decompose`, following the source statement by statement: the
scales are the column lengths (with `sx` negated on negative determinant),
`m1` is a clone of the receiver taken *before* the columns of the receiver
are scaled by the inverse scales, and the Euler conversion is applied to
`m1`. -/
def Matrix4.decompose (m : Matrix4) (outEuler : Euler) : DecomposeResult :=
  let sx0 := Vector3.length ⟨m.e0, m.e1, m.e2⟩
  let sy := Vector3.length ⟨m.e4, m.e5, m.e6⟩
  let sz := Vector3.length ⟨m.e8, m.e9, m.e10⟩
  let det := m.determinant
  let sx := if det < 0 then -sx0 else sx0
  let m1 := m
  let invSX := 1 / sx
  let invSY := 1 / sy
  let invSZ := 1 / sz
  let receiver : Matrix4 :=
    ⟨m.e0 * invSX, m.e1 * invSX, m.e2 * invSX, m.e3,
     m.e4 * invSY, m.e5 * invSY, m.e6 * invSY, m.e7,
     m.e8 * invSZ, m.e9 * invSZ, m.e10 * invSZ, m.e11,
     m.e12, m.e13, m.e14, m.e15⟩
  { position := ⟨m.e12, m.e13, m.e14⟩
    euler := Euler.setFromRotationMatrix outEuler m1
    scale := ⟨sx, sy, sz⟩
    receiver := receiver }

/-- The Euler output that the spec describes for `decompose`: it says the
rotation block is normalized "by dividing each column by its corresponding
scale" and that the matrix-to-angle conversion is called on the normalized
block.  This definition follows the spec's words (for comparison with the
source's `Matrix4.decompose` above, which hands the conversion the
pre-normalization clone `m1`). -/
def Matrix4.decomposeEulerSpec (m : Matrix4) (outEuler : Euler) : Euler :=
  let sx0 := Vector3.length ⟨m.e0, m.e1, m.e2⟩
  let sy := Vector3.length ⟨m.e4, m.e5, m.e6⟩
  let sz := Vector3.length ⟨m.e8, m.e9, m.e10⟩
  let det := m.determinant
  let sx := if det < 0 then -sx0 else sx0
  let normalized : Matrix4 :=
    ⟨m.e0 / sx, m.e1 / sx, m.e2 / sx, m.e3,
     m.e4 / sy, m.e5 / sy, m.e6 / sy, m.e7,
     m.e8 / sz, m.e9 / sz, m.e10 / sz, m.e11,
     m.e12, m.e13, m.e14, m.e15⟩
  Euler.setFromRotationMatrix outEuler normalized

/-- `Box3`: an axis-aligned box given by its two corner points. -/
structure Box3 where
  min : Vector3
  max : Vector3

/-- `Ray`: an origin point and a direction vector. -/
structure Ray where
  origin : Vector3
  direction : Vector3

namespace Ray

/-- `Ray.at` (named `atPoint` because `at` is reserved in Lean):
`origin + direction * t`. -/
def atPoint (r : Ray) (t : ℝ) : Vector3 :=
  (r.direction.multiplyScalar t).add r.origin

/-- The r, s₀, s₁ outputs of `Ray.distanceSqToSegment`: the squared
distance plus the closest point on the ray and on the segment (the two
optional output vectors of the source, always computed here). -/
structure SegmentDistanceResult where
  sqrDist : ℝ
  pointOnRay : Vector3
  pointOnSegment : Vector3

/-- `Ray.distanceSqToSegment`: constrained closest-pair computation between
the ray and the segment `v0v1`, with the source's seven-branch case
analysis, the parallel case being the `det = 0` fall-through branch. -/
def distanceSqToSegment (r : Ray) (v0 v1 : Vector3) : SegmentDistanceResult :=
  let segCenter := (v0.add v1).multiplyScalar 0.5
  let segDir := (v1.subtract v0).unit
  let diff := r.origin.subtract segCenter
  let segExtent := v0.distanceTo v1 * 0.5
  let a01 := -(r.direction.dot segDir)
  let b0 := diff.dot r.direction
  let b1 := -(diff.dot segDir)
  let c := diff.lengthSquared
  let det := |1 - a01 * a01|
  let finish : ℝ → ℝ → ℝ → SegmentDistanceResult := fun sqrDist s0 s1 =>
    ⟨sqrDist, (r.direction.multiplyScalar s0).add r.origin,
      (segDir.multiplyScalar s1).add segCenter⟩
  if det > 0 then
    let s0 := a01 * b1 - b0
    let s1 := a01 * b0 - b1
    let extDet := segExtent * det
    if s0 ≥ 0 then
      if s1 ≥ -extDet then
        if s1 ≤ extDet then
          -- region 0: interior minimum
          let invDet := 1 / det
          let s0m := s0 * invDet
          let s1m := s1 * invDet
          finish (s0m * (s0m + a01 * s1m + 2 * b0)
            + s1m * (a01 * s0m + s1m + 2 * b1) + c) s0m s1m
        else
          let s1m := segExtent
          let s0m := max 0 (-(a01 * s1m + b0))
          finish (-s0m * s0m + s1m * (s1m + 2 * b1) + c) s0m s1m
      else
        let s1m := -segExtent
        let s0m := max 0 (-(a01 * s1m + b0))
        finish (-s0m * s0m + s1m * (s1m + 2 * b1) + c) s0m s1m
    else if s1 ≤ -extDet then
      let s0m := max 0 (-(-(a01 * segExtent) + b0))
      let s1m := if s0m > 0 then -segExtent else min (max (-segExtent) (-b1)) segExtent
      finish (-s0m * s0m + s1m * (s1m + 2 * b1) + c) s0m s1m
    else if s1 ≤ extDet then
      let s0m := (0 : ℝ)
      let s1m := min (max (-segExtent) (-b1)) segExtent
      finish (s1m * (s1m + 2 * b1) + c) s0m s1m
    else
      let s0m := max 0 (-(a01 * segExtent + b0))
      let s1m := if s0m > 0 then segExtent else min (max (-segExtent) (-b1)) segExtent
      finish (-s0m * s0m + s1m * (s1m + 2 * b1) + c) s0m s1m
  else
    -- Ray and segment are parallel.
    let s1m := if a01 > 0 then -segExtent else segExtent
    let s0m := max 0 (-(a01 * s1m + b0))
    finish (-s0m * s0m + s1m * (s1m + 2 * b1) + c) s0m s1m

end Ray

/-- A JavaScript double as used by `Ray.intersectBox`: a finite real, one
of the two infinities (arising from `1 / 0`), or NaN (arising from
`0 * Infinity`).  Comparisons against NaN are false, which the slab method
relies on. -/
inductive JSNum where
  | fin (r : ℝ)
  | posInf
  | negInf
  | nan

namespace JSNum

/-- Strict `<` on JavaScript numbers (false whenever either side is NaN). -/
def lt : JSNum → JSNum → Prop
  | nan, _ => False
  | _, nan => False
  | fin a, fin b => a < b
  | fin _, posInf => True
  | fin _, negInf => False
  | posInf, _ => False
  | negInf, negInf => False
  | negInf, _ => True

/-- Non-strict `<=` on JavaScript numbers (false whenever either side is
NaN). -/
def le : JSNum → JSNum → Prop
  | nan, _ => False
  | _, nan => False
  | fin a, fin b => a ≤ b
  | fin _, posInf => True
  | fin _, negInf => False
  | posInf, posInf => True
  | posInf, _ => False
  | negInf, _ => True

/-- Multiplication of a finite real by a JavaScript number: `r * ±∞` is an
infinity by the sign of `r`, and NaN when `r = 0`. -/
def mulFin (r : ℝ) : JSNum → JSNum
  | fin s => fin (r * s)
  | posInf => if 0 < r then posInf else if r < 0 then negInf else nan
  | negInf => if 0 < r then negInf else if r < 0 then posInf else nan
  | nan => nan

/-- `1 / d` in JavaScript for a finite `d` (zero taken as `+0`, so the
quotient at zero is `+Infinity`). -/
def oneDiv (d : ℝ) : JSNum := if d = 0 then posInf else fin (1 / d)

/-- The finite value of a JavaScript number (junk value 0 on the
non-finite cases, which the scoped claims never reach). -/
def toReal : JSNum → ℝ
  | fin r => r
  | _ => 0

end JSNum

namespace Ray

/-- Lower slab bound for one axis: the branch of `intersectBox` that picks
`(min - origin) * invdir` when `invdir >= 0` and `(max - origin) * invdir`
otherwise. -/
def slabLo (lo hi o : ℝ) (invd : JSNum) : JSNum :=
  if JSNum.le (.fin 0) invd then JSNum.mulFin (lo - o) invd
  else JSNum.mulFin (hi - o) invd

/-- Upper slab bound for one axis (the matching `tmax` pick). -/
def slabHi (lo hi o : ℝ) (invd : JSNum) : JSNum :=
  if JSNum.le (.fin 0) invd then JSNum.mulFin (hi - o) invd
  else JSNum.mulFin (lo - o) invd

/-- `tmin` of the x slab. -/
def tMinX (r : Ray) (box : Box3) : JSNum :=
  slabLo box.min.x box.max.x r.origin.x (JSNum.oneDiv r.direction.x)

/-- `tmax` of the x slab. -/
def tMaxX (r : Ray) (box : Box3) : JSNum :=
  slabHi box.min.x box.max.x r.origin.x (JSNum.oneDiv r.direction.x)

/-- `tymin`. -/
def tMinY (r : Ray) (box : Box3) : JSNum :=
  slabLo box.min.y box.max.y r.origin.y (JSNum.oneDiv r.direction.y)

/-- `tymax`. -/
def tMaxY (r : Ray) (box : Box3) : JSNum :=
  slabHi box.min.y box.max.y r.origin.y (JSNum.oneDiv r.direction.y)

/-- `tzmin`. -/
def tMinZ (r : Ray) (box : Box3) : JSNum :=
  slabLo box.min.z box.max.z r.origin.z (JSNum.oneDiv r.direction.z)

/-- `tzmax`. -/
def tMaxZ (r : Ray) (box : Box3) : JSNum :=
  slabHi box.min.z box.max.z r.origin.z (JSNum.oneDiv r.direction.z)

/-- `tmin` after merging the x and y slabs (`if (tymin > tmin) tmin = tymin`). -/
def tMinXY (r : Ray) (box : Box3) : JSNum :=
  if JSNum.lt (tMinX r box) (tMinY r box) then tMinY r box else tMinX r box

/-- `tmax` after merging the x and y slabs (`if (tymax < tmax) tmax = tymax`). -/
def tMaxXY (r : Ray) (box : Box3) : JSNum :=
  if JSNum.lt (tMaxY r box) (tMaxX r box) then tMaxY r box else tMaxX r box

/-- `tmin` after also merging the z slab. -/
def tMinXYZ (r : Ray) (box : Box3) : JSNum :=
  if JSNum.lt (tMinXY r box) (tMinZ r box) then tMinZ r box else tMinXY r box

/-- `tmax` after also merging the z slab. -/
def tMaxXYZ (r : Ray) (box : Box3) : JSNum :=
  if JSNum.lt (tMaxZ r box) (tMaxXY r box) then tMaxZ r box else tMaxXY r box

/-- `Ray.intersectBox`: the slab method, returning the nearest hit point
or `none`, with JavaScript number semantics for the degenerate direction
components. -/
def intersectBox (r : Ray) (box : Box3) : Option Vector3 :=
  if JSNum.lt (tMaxY r box) (tMinX r box) ∨ JSNum.lt (tMaxX r box) (tMinY r box) then
    none
  else if JSNum.lt (tMaxZ r box) (tMinXY r box) ∨ JSNum.lt (tMaxXY r box) (tMinZ r box) then
    none
  else if JSNum.lt (tMaxXYZ r box) (.fin 0) then
    none
  else
    some (r.atPoint (if JSNum.le (.fin 0) (tMinXYZ r box) then (tMinXYZ r box).toReal
      else (tMaxXYZ r box).toReal))

end Ray

/-! ## Trigonometric helper lemmas -/

lemma sin_full (θ : ℝ) : Real.sin θ = 2 * Real.sin (θ / 2) * Real.cos (θ / 2) := by
  have h := Real.sin_two_mul (θ / 2)
  rwa [show 2 * (θ / 2) = θ by ring] at h

lemma cos_full (θ : ℝ) : Real.cos θ = Real.cos (θ / 2) ^ 2 - Real.sin (θ / 2) ^ 2 := by
  have h := Real.cos_two_mul' (θ / 2)
  rwa [show 2 * (θ / 2) = θ by ring] at h

lemma clamp_of_abs_le {v : ℝ} (h : |v| ≤ 1) : clamp v (-1) 1 = v := by
  rw [abs_le] at h
  rw [clamp, if_neg (not_lt.2 h.1), if_neg (not_lt.2 h.2)]

/-! ## Entries of the composed rotation matrix, per order

For each order and each matrix element read by `Euler.setFromRotationMatrix`,
the element of `Matrix4.compose` at zero translation and unit scale equals
its closed trigonometric form. -/

lemma m13_XYZ (x y z : ℝ) :
    (Matrix4.compose ⟨0,0,0⟩ ⟨x,y,z,.XYZ⟩ ⟨1,1,1⟩).e8 = Real.sin y := by
  simp only [Matrix4.compose, Quaternion.setFromEuler]
  rw [sin_full y]
  have h1 := Real.sin_sq_add_cos_sq (x / 2)
  have h3 := Real.sin_sq_add_cos_sq (z / 2)
  linear_combination (2 * Real.sin (y/2) * Real.cos (y/2)
      * (Real.sin (z/2)^2 + Real.cos (z/2)^2)) * h1
    + (2 * Real.sin (y/2) * Real.cos (y/2)) * h3

lemma m23_XYZ (x y z : ℝ) :
    (Matrix4.compose ⟨0,0,0⟩ ⟨x,y,z,.XYZ⟩ ⟨1,1,1⟩).e9 = -(Real.sin x * Real.cos y) := by
  simp only [Matrix4.compose, Quaternion.setFromEuler]
  rw [sin_full x, cos_full y]
  have h3 := Real.sin_sq_add_cos_sq (z / 2)
  linear_combination (-(2 * Real.sin (x/2) * Real.cos (x/2))
    * (Real.cos (y/2)^2 - Real.sin (y/2)^2)) * h3

lemma m33_XYZ (x y z : ℝ) :
    (Matrix4.compose ⟨0,0,0⟩ ⟨x,y,z,.XYZ⟩ ⟨1,1,1⟩).e10 = Real.cos x * Real.cos y := by
  simp only [Matrix4.compose, Quaternion.setFromEuler]
  rw [cos_full x, cos_full y]
  have h1 := Real.sin_sq_add_cos_sq (x / 2)
  have h2 := Real.sin_sq_add_cos_sq (y / 2)
  have h3 := Real.sin_sq_add_cos_sq (z / 2)
  linear_combination (-((Real.sin (y/2)^2 + Real.cos (y/2)^2)
        * (Real.sin (z/2)^2 + Real.cos (z/2)^2))) * h1
    + (-(Real.sin (z/2)^2 + Real.cos (z/2)^2)) * h2
    + ((Real.cos (x/2)^2 - Real.sin (x/2)^2) * (Real.cos (y/2)^2 - Real.sin (y/2)^2) - 1) * h3

lemma m12_XYZ (x y z : ℝ) :
    (Matrix4.compose ⟨0,0,0⟩ ⟨x,y,z,.XYZ⟩ ⟨1,1,1⟩).e4 = -(Real.cos y * Real.sin z) := by
  simp only [Matrix4.compose, Quaternion.setFromEuler]
  rw [cos_full y, sin_full z]
  have h1 := Real.sin_sq_add_cos_sq (x / 2)
  linear_combination (-((Real.cos (y/2)^2 - Real.sin (y/2)^2)
    * (2 * Real.sin (z/2) * Real.cos (z/2)))) * h1

lemma m11_XYZ (x y z : ℝ) :
    (Matrix4.compose ⟨0,0,0⟩ ⟨x,y,z,.XYZ⟩ ⟨1,1,1⟩).e0 = Real.cos y * Real.cos z := by
  simp only [Matrix4.compose, Quaternion.setFromEuler]
  rw [cos_full y, cos_full z]
  have h1 := Real.sin_sq_add_cos_sq (x / 2)
  have h2 := Real.sin_sq_add_cos_sq (y / 2)
  have h3 := Real.sin_sq_add_cos_sq (z / 2)
  linear_combination ((Real.cos (y/2)^2 - Real.sin (y/2)^2)
        * (Real.cos (z/2)^2 - Real.sin (z/2)^2)
      - (Real.sin (y/2)^2 + Real.cos (y/2)^2) * (Real.sin (z/2)^2 + Real.cos (z/2)^2)) * h1
    + (-(Real.sin (z/2)^2 + Real.cos (z/2)^2)) * h2 + (-1 : ℝ) * h3

lemma m23_YXZ (x y z : ℝ) :
    (Matrix4.compose ⟨0,0,0⟩ ⟨x,y,z,.YXZ⟩ ⟨1,1,1⟩).e9 = -(Real.sin x) := by
  simp only [Matrix4.compose, Quaternion.setFromEuler]
  rw [sin_full x]
  have h2 := Real.sin_sq_add_cos_sq (y / 2)
  have h3 := Real.sin_sq_add_cos_sq (z / 2)
  linear_combination (-(2 * Real.sin (x/2) * Real.cos (x/2))
      * (Real.sin (z/2)^2 + Real.cos (z/2)^2)) * h2
    + (-(2 * Real.sin (x/2) * Real.cos (x/2))) * h3

lemma m13_YXZ (x y z : ℝ) :
    (Matrix4.compose ⟨0,0,0⟩ ⟨x,y,z,.YXZ⟩ ⟨1,1,1⟩).e8 = Real.sin y * Real.cos x := by
  simp only [Matrix4.compose, Quaternion.setFromEuler]
  rw [sin_full y, cos_full x]
  have h3 := Real.sin_sq_add_cos_sq (z / 2)
  linear_combination ((2 * Real.sin (y/2) * Real.cos (y/2))
    * (Real.cos (x/2)^2 - Real.sin (x/2)^2)) * h3

lemma m33_YXZ (x y z : ℝ) :
    (Matrix4.compose ⟨0,0,0⟩ ⟨x,y,z,.YXZ⟩ ⟨1,1,1⟩).e10 = Real.cos y * Real.cos x := by
  simp only [Matrix4.compose, Quaternion.setFromEuler]
  rw [cos_full y, cos_full x]
  have h1 := Real.sin_sq_add_cos_sq (x / 2)
  have h2 := Real.sin_sq_add_cos_sq (y / 2)
  have h3 := Real.sin_sq_add_cos_sq (z / 2)
  linear_combination (-((Real.sin (y/2)^2 + Real.cos (y/2)^2)
        * (Real.sin (z/2)^2 + Real.cos (z/2)^2))) * h1
    + (-(Real.sin (z/2)^2 + Real.cos (z/2)^2)) * h2
    + ((Real.cos (y/2)^2 - Real.sin (y/2)^2) * (Real.cos (x/2)^2 - Real.sin (x/2)^2) - 1) * h3

lemma m21_YXZ (x y z : ℝ) :
    (Matrix4.compose ⟨0,0,0⟩ ⟨x,y,z,.YXZ⟩ ⟨1,1,1⟩).e1 = Real.cos x * Real.sin z := by
  simp only [Matrix4.compose, Quaternion.setFromEuler]
  rw [cos_full x, sin_full z]
  have h2 := Real.sin_sq_add_cos_sq (y / 2)
  linear_combination ((Real.cos (x/2)^2 - Real.sin (x/2)^2)
    * (2 * Real.sin (z/2) * Real.cos (z/2))) * h2

lemma m22_YXZ (x y z : ℝ) :
    (Matrix4.compose ⟨0,0,0⟩ ⟨x,y,z,.YXZ⟩ ⟨1,1,1⟩).e5 = Real.cos x * Real.cos z := by
  simp only [Matrix4.compose, Quaternion.setFromEuler]
  rw [cos_full x, cos_full z]
  have h1 := Real.sin_sq_add_cos_sq (x / 2)
  have h2 := Real.sin_sq_add_cos_sq (y / 2)
  have h3 := Real.sin_sq_add_cos_sq (z / 2)
  linear_combination (-((Real.sin (y/2)^2 + Real.cos (y/2)^2)
        * (Real.sin (z/2)^2 + Real.cos (z/2)^2))) * h1
    + ((Real.cos (x/2)^2 - Real.sin (x/2)^2) * (Real.cos (z/2)^2 - Real.sin (z/2)^2)
      - (Real.sin (z/2)^2 + Real.cos (z/2)^2)) * h2 + (-1 : ℝ) * h3

lemma m32_ZXY (x y z : ℝ) :
    (Matrix4.compose ⟨0,0,0⟩ ⟨x,y,z,.ZXY⟩ ⟨1,1,1⟩).e6 = Real.sin x := by
  simp only [Matrix4.compose, Quaternion.setFromEuler]
  rw [sin_full x]
  have h2 := Real.sin_sq_add_cos_sq (y / 2)
  have h3 := Real.sin_sq_add_cos_sq (z / 2)
  linear_combination ((2 * Real.sin (x/2) * Real.cos (x/2))
      * (Real.sin (z/2)^2 + Real.cos (z/2)^2)) * h2
    + (2 * Real.sin (x/2) * Real.cos (x/2)) * h3

lemma m31_ZXY (x y z : ℝ) :
    (Matrix4.compose ⟨0,0,0⟩ ⟨x,y,z,.ZXY⟩ ⟨1,1,1⟩).e2 = -(Real.cos x * Real.sin y) := by
  simp only [Matrix4.compose, Quaternion.setFromEuler]
  rw [cos_full x, sin_full y]
  have h3 := Real.sin_sq_add_cos_sq (z / 2)
  linear_combination (-((Real.cos (x/2)^2 - Real.sin (x/2)^2)
    * (2 * Real.sin (y/2) * Real.cos (y/2)))) * h3

lemma m33_ZXY (x y z : ℝ) :
    (Matrix4.compose ⟨0,0,0⟩ ⟨x,y,z,.ZXY⟩ ⟨1,1,1⟩).e10 = Real.cos x * Real.cos y := by
  simp only [Matrix4.compose, Quaternion.setFromEuler]
  rw [cos_full x, cos_full y]
  have h1 := Real.sin_sq_add_cos_sq (x / 2)
  have h2 := Real.sin_sq_add_cos_sq (y / 2)
  have h3 := Real.sin_sq_add_cos_sq (z / 2)
  linear_combination (-((Real.sin (y/2)^2 + Real.cos (y/2)^2)
        * (Real.sin (z/2)^2 + Real.cos (z/2)^2))) * h1
    + (-(Real.sin (z/2)^2 + Real.cos (z/2)^2)) * h2
    + ((Real.cos (x/2)^2 - Real.sin (x/2)^2) * (Real.cos (y/2)^2 - Real.sin (y/2)^2) - 1) * h3

lemma m12_ZXY (x y z : ℝ) :
    (Matrix4.compose ⟨0,0,0⟩ ⟨x,y,z,.ZXY⟩ ⟨1,1,1⟩).e4 = -(Real.sin z * Real.cos x) := by
  simp only [Matrix4.compose, Quaternion.setFromEuler]
  rw [sin_full z, cos_full x]
  have h2 := Real.sin_sq_add_cos_sq (y / 2)
  linear_combination (-((2 * Real.sin (z/2) * Real.cos (z/2))
    * (Real.cos (x/2)^2 - Real.sin (x/2)^2))) * h2

lemma m22_ZXY (x y z : ℝ) :
    (Matrix4.compose ⟨0,0,0⟩ ⟨x,y,z,.ZXY⟩ ⟨1,1,1⟩).e5 = Real.cos z * Real.cos x := by
  simp only [Matrix4.compose, Quaternion.setFromEuler]
  rw [cos_full z, cos_full x]
  have h1 := Real.sin_sq_add_cos_sq (x / 2)
  have h2 := Real.sin_sq_add_cos_sq (y / 2)
  have h3 := Real.sin_sq_add_cos_sq (z / 2)
  linear_combination (-((Real.sin (y/2)^2 + Real.cos (y/2)^2)
        * (Real.sin (z/2)^2 + Real.cos (z/2)^2))) * h1
    + ((Real.cos (z/2)^2 - Real.sin (z/2)^2) * (Real.cos (x/2)^2 - Real.sin (x/2)^2)
      - (Real.sin (z/2)^2 + Real.cos (z/2)^2)) * h2 + (-1 : ℝ) * h3

lemma m31_ZYX (x y z : ℝ) :
    (Matrix4.compose ⟨0,0,0⟩ ⟨x,y,z,.ZYX⟩ ⟨1,1,1⟩).e2 = -(Real.sin y) := by
  simp only [Matrix4.compose, Quaternion.setFromEuler]
  rw [sin_full y]
  have h1 := Real.sin_sq_add_cos_sq (x / 2)
  have h3 := Real.sin_sq_add_cos_sq (z / 2)
  linear_combination (-(2 * Real.sin (y/2) * Real.cos (y/2))
      * (Real.sin (z/2)^2 + Real.cos (z/2)^2)) * h1
    + (-(2 * Real.sin (y/2) * Real.cos (y/2))) * h3

lemma m32_ZYX (x y z : ℝ) :
    (Matrix4.compose ⟨0,0,0⟩ ⟨x,y,z,.ZYX⟩ ⟨1,1,1⟩).e6 = Real.cos y * Real.sin x := by
  simp only [Matrix4.compose, Quaternion.setFromEuler]
  rw [cos_full y, sin_full x]
  have h3 := Real.sin_sq_add_cos_sq (z / 2)
  linear_combination ((Real.cos (y/2)^2 - Real.sin (y/2)^2)
    * (2 * Real.sin (x/2) * Real.cos (x/2))) * h3

lemma m33_ZYX (x y z : ℝ) :
    (Matrix4.compose ⟨0,0,0⟩ ⟨x,y,z,.ZYX⟩ ⟨1,1,1⟩).e10 = Real.cos y * Real.cos x := by
  simp only [Matrix4.compose, Quaternion.setFromEuler]
  rw [cos_full y, cos_full x]
  have h1 := Real.sin_sq_add_cos_sq (x / 2)
  have h2 := Real.sin_sq_add_cos_sq (y / 2)
  have h3 := Real.sin_sq_add_cos_sq (z / 2)
  linear_combination (-((Real.sin (y/2)^2 + Real.cos (y/2)^2)
        * (Real.sin (z/2)^2 + Real.cos (z/2)^2))) * h1
    + (-(Real.sin (z/2)^2 + Real.cos (z/2)^2)) * h2
    + ((Real.cos (y/2)^2 - Real.sin (y/2)^2) * (Real.cos (x/2)^2 - Real.sin (x/2)^2) - 1) * h3

lemma m21_ZYX (x y z : ℝ) :
    (Matrix4.compose ⟨0,0,0⟩ ⟨x,y,z,.ZYX⟩ ⟨1,1,1⟩).e1 = Real.sin z * Real.cos y := by
  simp only [Matrix4.compose, Quaternion.setFromEuler]
  rw [sin_full z, cos_full y]
  have h1 := Real.sin_sq_add_cos_sq (x / 2)
  linear_combination ((2 * Real.sin (z/2) * Real.cos (z/2))
    * (Real.cos (y/2)^2 - Real.sin (y/2)^2)) * h1

lemma m11_ZYX (x y z : ℝ) :
    (Matrix4.compose ⟨0,0,0⟩ ⟨x,y,z,.ZYX⟩ ⟨1,1,1⟩).e0 = Real.cos z * Real.cos y := by
  simp only [Matrix4.compose, Quaternion.setFromEuler]
  rw [cos_full z, cos_full y]
  have h1 := Real.sin_sq_add_cos_sq (x / 2)
  have h2 := Real.sin_sq_add_cos_sq (y / 2)
  have h3 := Real.sin_sq_add_cos_sq (z / 2)
  linear_combination ((Real.cos (z/2)^2 - Real.sin (z/2)^2)
        * (Real.cos (y/2)^2 - Real.sin (y/2)^2)
      - (Real.sin (y/2)^2 + Real.cos (y/2)^2) * (Real.sin (z/2)^2 + Real.cos (z/2)^2)) * h1
    + (-(Real.sin (z/2)^2 + Real.cos (z/2)^2)) * h2 + (-1 : ℝ) * h3

lemma m21_YZX (x y z : ℝ) :
    (Matrix4.compose ⟨0,0,0⟩ ⟨x,y,z,.YZX⟩ ⟨1,1,1⟩).e1 = Real.sin z := by
  simp only [Matrix4.compose, Quaternion.setFromEuler]
  rw [sin_full z]
  have h1 := Real.sin_sq_add_cos_sq (x / 2)
  have h2 := Real.sin_sq_add_cos_sq (y / 2)
  linear_combination ((2 * Real.sin (z/2) * Real.cos (z/2))
      * (Real.sin (y/2)^2 + Real.cos (y/2)^2)) * h1
    + (2 * Real.sin (z/2) * Real.cos (z/2)) * h2

lemma m23_YZX (x y z : ℝ) :
    (Matrix4.compose ⟨0,0,0⟩ ⟨x,y,z,.YZX⟩ ⟨1,1,1⟩).e9 = -(Real.cos z * Real.sin x) := by
  simp only [Matrix4.compose, Quaternion.setFromEuler]
  rw [cos_full z, sin_full x]
  have h2 := Real.sin_sq_add_cos_sq (y / 2)
  linear_combination (-((Real.cos (z/2)^2 - Real.sin (z/2)^2)
    * (2 * Real.sin (x/2) * Real.cos (x/2)))) * h2

lemma m22_YZX (x y z : ℝ) :
    (Matrix4.compose ⟨0,0,0⟩ ⟨x,y,z,.YZX⟩ ⟨1,1,1⟩).e5 = Real.cos z * Real.cos x := by
  simp only [Matrix4.compose, Quaternion.setFromEuler]
  rw [cos_full z, cos_full x]
  have h1 := Real.sin_sq_add_cos_sq (x / 2)
  have h2 := Real.sin_sq_add_cos_sq (y / 2)
  have h3 := Real.sin_sq_add_cos_sq (z / 2)
  linear_combination (-((Real.sin (y/2)^2 + Real.cos (y/2)^2)
        * (Real.sin (z/2)^2 + Real.cos (z/2)^2))) * h1
    + ((Real.cos (z/2)^2 - Real.sin (z/2)^2) * (Real.cos (x/2)^2 - Real.sin (x/2)^2)
      - (Real.sin (z/2)^2 + Real.cos (z/2)^2)) * h2 + (-1 : ℝ) * h3

lemma m31_YZX (x y z : ℝ) :
    (Matrix4.compose ⟨0,0,0⟩ ⟨x,y,z,.YZX⟩ ⟨1,1,1⟩).e2 = -(Real.sin y * Real.cos z) := by
  simp only [Matrix4.compose, Quaternion.setFromEuler]
  rw [sin_full y, cos_full z]
  have h1 := Real.sin_sq_add_cos_sq (x / 2)
  linear_combination (-((2 * Real.sin (y/2) * Real.cos (y/2))
    * (Real.cos (z/2)^2 - Real.sin (z/2)^2))) * h1

lemma m11_YZX (x y z : ℝ) :
    (Matrix4.compose ⟨0,0,0⟩ ⟨x,y,z,.YZX⟩ ⟨1,1,1⟩).e0 = Real.cos y * Real.cos z := by
  simp only [Matrix4.compose, Quaternion.setFromEuler]
  rw [cos_full y, cos_full z]
  have h1 := Real.sin_sq_add_cos_sq (x / 2)
  have h2 := Real.sin_sq_add_cos_sq (y / 2)
  have h3 := Real.sin_sq_add_cos_sq (z / 2)
  linear_combination ((Real.cos (y/2)^2 - Real.sin (y/2)^2)
        * (Real.cos (z/2)^2 - Real.sin (z/2)^2)
      - (Real.sin (y/2)^2 + Real.cos (y/2)^2) * (Real.sin (z/2)^2 + Real.cos (z/2)^2)) * h1
    + (-(Real.sin (z/2)^2 + Real.cos (z/2)^2)) * h2 + (-1 : ℝ) * h3

lemma m12_XZY (x y z : ℝ) :
    (Matrix4.compose ⟨0,0,0⟩ ⟨x,y,z,.XZY⟩ ⟨1,1,1⟩).e4 = -(Real.sin z) := by
  simp only [Matrix4.compose, Quaternion.setFromEuler]
  rw [sin_full z]
  have h1 := Real.sin_sq_add_cos_sq (x / 2)
  have h2 := Real.sin_sq_add_cos_sq (y / 2)
  linear_combination (-(2 * Real.sin (z/2) * Real.cos (z/2))
      * (Real.sin (y/2)^2 + Real.cos (y/2)^2)) * h1
    + (-(2 * Real.sin (z/2) * Real.cos (z/2))) * h2

lemma m32_XZY (x y z : ℝ) :
    (Matrix4.compose ⟨0,0,0⟩ ⟨x,y,z,.XZY⟩ ⟨1,1,1⟩).e6 = Real.sin x * Real.cos z := by
  simp only [Matrix4.compose, Quaternion.setFromEuler]
  rw [sin_full x, cos_full z]
  have h2 := Real.sin_sq_add_cos_sq (y / 2)
  linear_combination ((2 * Real.sin (x/2) * Real.cos (x/2))
    * (Real.cos (z/2)^2 - Real.sin (z/2)^2)) * h2

lemma m22_XZY (x y z : ℝ) :
    (Matrix4.compose ⟨0,0,0⟩ ⟨x,y,z,.XZY⟩ ⟨1,1,1⟩).e5 = Real.cos x * Real.cos z := by
  simp only [Matrix4.compose, Quaternion.setFromEuler]
  rw [cos_full x, cos_full z]
  have h1 := Real.sin_sq_add_cos_sq (x / 2)
  have h2 := Real.sin_sq_add_cos_sq (y / 2)
  have h3 := Real.sin_sq_add_cos_sq (z / 2)
  linear_combination (-((Real.sin (y/2)^2 + Real.cos (y/2)^2)
        * (Real.sin (z/2)^2 + Real.cos (z/2)^2))) * h1
    + ((Real.cos (x/2)^2 - Real.sin (x/2)^2) * (Real.cos (z/2)^2 - Real.sin (z/2)^2)
      - (Real.sin (z/2)^2 + Real.cos (z/2)^2)) * h2 + (-1 : ℝ) * h3

lemma m13_XZY (x y z : ℝ) :
    (Matrix4.compose ⟨0,0,0⟩ ⟨x,y,z,.XZY⟩ ⟨1,1,1⟩).e8 = Real.cos z * Real.sin y := by
  simp only [Matrix4.compose, Quaternion.setFromEuler]
  rw [cos_full z, sin_full y]
  have h1 := Real.sin_sq_add_cos_sq (x / 2)
  linear_combination ((Real.cos (z/2)^2 - Real.sin (z/2)^2)
    * (2 * Real.sin (y/2) * Real.cos (y/2))) * h1

lemma m11_XZY (x y z : ℝ) :
    (Matrix4.compose ⟨0,0,0⟩ ⟨x,y,z,.XZY⟩ ⟨1,1,1⟩).e0 = Real.cos z * Real.cos y := by
  simp only [Matrix4.compose, Quaternion.setFromEuler]
  rw [cos_full z, cos_full y]
  have h1 := Real.sin_sq_add_cos_sq (x / 2)
  have h2 := Real.sin_sq_add_cos_sq (y / 2)
  have h3 := Real.sin_sq_add_cos_sq (z / 2)
  linear_combination ((Real.cos (z/2)^2 - Real.sin (z/2)^2)
        * (Real.cos (y/2)^2 - Real.sin (y/2)^2)
      - (Real.sin (y/2)^2 + Real.cos (y/2)^2) * (Real.sin (z/2)^2 + Real.cos (z/2)^2)) * h1
    + (-(Real.sin (z/2)^2 + Real.cos (z/2)^2)) * h2 + (-1 : ℝ) * h3

/-! ## Properties of `atan2` -/

lemma atan2_mulPos {r : ℝ} (hr : 0 < r) (y x : ℝ) : atan2 (r * y) (r * x) = atan2 y x := by
  unfold atan2
  rw [mul_div_mul_left y x (ne_of_gt hr)]
  split_ifs <;> first | rfl | (exfalso; nlinarith)

lemma atan2_sin_cos {a : ℝ} (h1 : -π < a) (h2 : a ≤ π) :
    atan2 (Real.sin a) (Real.cos a) = a := by
  unfold atan2
  by_cases hc : 0 < Real.cos a
  · have ha1 : -(π / 2) < a := by
      by_contra h
      push_neg at h
      have h3 : Real.cos (-a) ≤ 0 :=
        Real.cos_nonpos_of_pi_div_two_le_of_le (by linarith) (by linarith)
      rw [Real.cos_neg] at h3
      linarith
    have ha2 : a < π / 2 := by
      by_contra h
      push_neg at h
      have h3 : Real.cos a ≤ 0 :=
        Real.cos_nonpos_of_pi_div_two_le_of_le h (by linarith [Real.pi_pos])
      linarith
    rw [if_pos hc, ← Real.tan_eq_sin_div_cos, Real.arctan_tan ha1 ha2]
  · by_cases hc2 : Real.cos a < 0
    · rw [if_neg hc, if_pos hc2]
      by_cases hs : 0 ≤ Real.sin a
      · have ha0 : 0 ≤ a := by
          by_contra h
          push_neg at h
          have h3 : Real.sin a < 0 := Real.sin_neg_of_neg_of_neg_pi_lt h h1
          linarith
        have hagt : π / 2 < a := by
          by_contra h
          push_neg at h
          have h3 : 0 ≤ Real.cos a := Real.cos_nonneg_of_mem_Icc ⟨by linarith, h⟩
          linarith
        rw [if_pos hs]
        have key : Real.sin a / Real.cos a = Real.sin (a - π) / Real.cos (a - π) := by
          rw [Real.sin_sub_pi, Real.cos_sub_pi, neg_div_neg_eq]
        rw [key, ← Real.tan_eq_sin_div_cos,
          Real.arctan_tan (by linarith) (by linarith [Real.pi_pos])]
        ring
      · push_neg at hs
        have ha0 : a < 0 := by
          by_contra h
          push_neg at h
          have h3 : 0 ≤ Real.sin a := Real.sin_nonneg_of_nonneg_of_le_pi h h2
          linarith
        have halt : a < -(π / 2) := by
          by_contra h
          push_neg at h
          have h3 : 0 ≤ Real.cos a := Real.cos_nonneg_of_mem_Icc ⟨h, by linarith⟩
          linarith
        rw [if_neg (not_le.2 hs)]
        have key : Real.sin a / Real.cos a = Real.sin (a + π) / Real.cos (a + π) := by
          rw [Real.sin_add_pi, Real.cos_add_pi, neg_div_neg_eq]
        rw [key, ← Real.tan_eq_sin_div_cos,
          Real.arctan_tan (by linarith) (by linarith [Real.pi_pos])]
        ring
    · have hc0 : Real.cos a = 0 := le_antisymm (not_lt.1 hc) (not_lt.1 hc2)
      rw [if_neg hc, if_neg hc2]
      rcases Real.cos_eq_zero_iff.1 hc0 with ⟨n, hn⟩
      have hpi := Real.pi_pos
      have hn1 : (-1 : ℤ) ≤ n := by
        by_contra h
        push_neg at h
        have h5 : n ≤ -2 := by omega
        have h4 : (n : ℝ) ≤ -2 := by exact_mod_cast h5
        nlinarith
      have hn0 : n ≤ 0 := by
        by_contra h
        push_neg at h
        have h4 : (1 : ℝ) ≤ (n : ℝ) := by exact_mod_cast h
        nlinarith
      interval_cases n
      · have ha : a = -(π / 2) := by rw [hn]; push_cast; ring
        rw [ha, Real.sin_neg, Real.sin_pi_div_two]
        norm_num [hpi]
      · have ha : a = π / 2 := by rw [hn]; push_cast; ring
        rw [ha, Real.sin_pi_div_two]
        norm_num [hpi]

/-- C1 (amended): for every one of the 6 rotation orders, Euler angles whose
middle angle lies strictly inside `(-π/2, π/2)` *and* has `|sin(middle)|`
below the gimbal threshold `0.9999999`, with outer angles in `(-π, π]`, are
reproduced exactly by the quaternion/matrix round trip
(`Quaternion.setFromEuler` via `Matrix4.compose` at zero translation and
unit scale, then `Euler.setFromRotationMatrix`). -/
theorem euler_roundtrip_below_threshold (x y z : ℝ) :
    (-(π / 2) < y → y < π / 2 → |Real.sin y| < 0.9999999 →
      -π < x → x ≤ π → -π < z → z ≤ π →
      Euler.setFromRotationMatrix ⟨0,0,0,.XYZ⟩
        (Matrix4.compose ⟨0,0,0⟩ ⟨x,y,z,.XYZ⟩ ⟨1,1,1⟩) = ⟨x,y,z,.XYZ⟩) ∧
    (-(π / 2) < x → x < π / 2 → |Real.sin x| < 0.9999999 →
      -π < y → y ≤ π → -π < z → z ≤ π →
      Euler.setFromRotationMatrix ⟨0,0,0,.YXZ⟩
        (Matrix4.compose ⟨0,0,0⟩ ⟨x,y,z,.YXZ⟩ ⟨1,1,1⟩) = ⟨x,y,z,.YXZ⟩) ∧
    (-(π / 2) < x → x < π / 2 → |Real.sin x| < 0.9999999 →
      -π < y → y ≤ π → -π < z → z ≤ π →
      Euler.setFromRotationMatrix ⟨0,0,0,.ZXY⟩
        (Matrix4.compose ⟨0,0,0⟩ ⟨x,y,z,.ZXY⟩ ⟨1,1,1⟩) = ⟨x,y,z,.ZXY⟩) ∧
    (-(π / 2) < y → y < π / 2 → |Real.sin y| < 0.9999999 →
      -π < x → x ≤ π → -π < z → z ≤ π →
      Euler.setFromRotationMatrix ⟨0,0,0,.ZYX⟩
        (Matrix4.compose ⟨0,0,0⟩ ⟨x,y,z,.ZYX⟩ ⟨1,1,1⟩) = ⟨x,y,z,.ZYX⟩) ∧
    (-(π / 2) < z → z < π / 2 → |Real.sin z| < 0.9999999 →
      -π < x → x ≤ π → -π < y → y ≤ π →
      Euler.setFromRotationMatrix ⟨0,0,0,.YZX⟩
        (Matrix4.compose ⟨0,0,0⟩ ⟨x,y,z,.YZX⟩ ⟨1,1,1⟩) = ⟨x,y,z,.YZX⟩) ∧
    (-(π / 2) < z → z < π / 2 → |Real.sin z| < 0.9999999 →
      -π < x → x ≤ π → -π < y → y ≤ π →
      Euler.setFromRotationMatrix ⟨0,0,0,.XZY⟩
        (Matrix4.compose ⟨0,0,0⟩ ⟨x,y,z,.XZY⟩ ⟨1,1,1⟩) = ⟨x,y,z,.XZY⟩) := by
  refine ⟨?_, ?_, ?_, ?_, ?_, ?_⟩
  · intro hm1 hm2 hth hx1 hx2 hz1 hz2
    have hcy : 0 < Real.cos y := Real.cos_pos_of_mem_Ioo ⟨hm1, hm2⟩
    simp only [Euler.setFromRotationMatrix]
    rw [m13_XYZ, m23_XYZ, m33_XYZ, m12_XYZ, m11_XYZ, if_pos hth]
    simp only [Euler.mk.injEq]
    refine ⟨?_, ?_, ?_, trivial⟩
    · rw [neg_neg, mul_comm (Real.sin x) (Real.cos y), mul_comm (Real.cos x) (Real.cos y),
        atan2_mulPos hcy, atan2_sin_cos hx1 hx2]
    · rw [clamp_of_abs_le (le_of_lt (lt_of_lt_of_le hth (by norm_num))),
        Real.arcsin_sin hm1.le hm2.le]
    · rw [neg_neg, atan2_mulPos hcy, atan2_sin_cos hz1 hz2]
  · intro hm1 hm2 hth hy1 hy2 hz1 hz2
    have hcx : 0 < Real.cos x := Real.cos_pos_of_mem_Ioo ⟨hm1, hm2⟩
    simp only [Euler.setFromRotationMatrix]
    rw [m23_YXZ, m13_YXZ, m33_YXZ, m21_YXZ, m22_YXZ,
      if_pos (by rw [abs_neg]; exact hth)]
    simp only [Euler.mk.injEq]
    refine ⟨?_, ?_, ?_, trivial⟩
    · rw [show clamp (-(Real.sin x)) (-1) 1 = -(Real.sin x) from
        clamp_of_abs_le (by rw [abs_neg]; exact le_of_lt (lt_of_lt_of_le hth (by norm_num))),
        neg_neg, Real.arcsin_sin hm1.le hm2.le]
    · rw [mul_comm (Real.sin y) (Real.cos x), mul_comm (Real.cos y) (Real.cos x),
        atan2_mulPos hcx, atan2_sin_cos hy1 hy2]
    · rw [atan2_mulPos hcx, atan2_sin_cos hz1 hz2]
  · intro hm1 hm2 hth hy1 hy2 hz1 hz2
    have hcx : 0 < Real.cos x := Real.cos_pos_of_mem_Ioo ⟨hm1, hm2⟩
    simp only [Euler.setFromRotationMatrix]
    rw [m32_ZXY, m31_ZXY, m33_ZXY, m12_ZXY, m22_ZXY, if_pos hth]
    simp only [Euler.mk.injEq]
    refine ⟨?_, ?_, ?_, trivial⟩
    · rw [clamp_of_abs_le (le_of_lt (lt_of_lt_of_le hth (by norm_num))),
        Real.arcsin_sin hm1.le hm2.le]
    · rw [neg_neg, atan2_mulPos hcx, atan2_sin_cos hy1 hy2]
    · rw [neg_neg, mul_comm (Real.sin z) (Real.cos x), mul_comm (Real.cos z) (Real.cos x),
        atan2_mulPos hcx, atan2_sin_cos hz1 hz2]
  · intro hm1 hm2 hth hx1 hx2 hz1 hz2
    have hcy : 0 < Real.cos y := Real.cos_pos_of_mem_Ioo ⟨hm1, hm2⟩
    simp only [Euler.setFromRotationMatrix]
    rw [m31_ZYX, m32_ZYX, m33_ZYX, m21_ZYX, m11_ZYX,
      if_pos (by rw [abs_neg]; exact hth)]
    simp only [Euler.mk.injEq]
    refine ⟨?_, ?_, ?_, trivial⟩
    · rw [atan2_mulPos hcy, atan2_sin_cos hx1 hx2]
    · rw [show clamp (-(Real.sin y)) (-1) 1 = -(Real.sin y) from
        clamp_of_abs_le (by rw [abs_neg]; exact le_of_lt (lt_of_lt_of_le hth (by norm_num))),
        neg_neg, Real.arcsin_sin hm1.le hm2.le]
    · rw [mul_comm (Real.sin z) (Real.cos y), mul_comm (Real.cos z) (Real.cos y),
        atan2_mulPos hcy, atan2_sin_cos hz1 hz2]
  · intro hm1 hm2 hth hx1 hx2 hy1 hy2
    have hcz : 0 < Real.cos z := Real.cos_pos_of_mem_Ioo ⟨hm1, hm2⟩
    simp only [Euler.setFromRotationMatrix]
    rw [m21_YZX, m23_YZX, m22_YZX, m31_YZX, m11_YZX, if_pos hth]
    simp only [Euler.mk.injEq]
    refine ⟨?_, ?_, ?_, trivial⟩
    · rw [neg_neg, atan2_mulPos hcz, atan2_sin_cos hx1 hx2]
    · rw [neg_neg, mul_comm (Real.sin y) (Real.cos z), mul_comm (Real.cos y) (Real.cos z),
        atan2_mulPos hcz, atan2_sin_cos hy1 hy2]
    · rw [clamp_of_abs_le (le_of_lt (lt_of_lt_of_le hth (by norm_num))),
        Real.arcsin_sin hm1.le hm2.le]
  · intro hm1 hm2 hth hx1 hx2 hy1 hy2
    have hcz : 0 < Real.cos z := Real.cos_pos_of_mem_Ioo ⟨hm1, hm2⟩
    simp only [Euler.setFromRotationMatrix]
    rw [m12_XZY, m32_XZY, m22_XZY, m13_XZY, m11_XZY,
      if_pos (by rw [abs_neg]; exact hth)]
    simp only [Euler.mk.injEq]
    refine ⟨?_, ?_, ?_, trivial⟩
    · rw [mul_comm (Real.sin x) (Real.cos z), mul_comm (Real.cos x) (Real.cos z),
        atan2_mulPos hcz, atan2_sin_cos hx1 hx2]
    · rw [atan2_mulPos hcz, atan2_sin_cos hy1 hy2]
    · rw [show clamp (-(Real.sin z)) (-1) 1 = -(Real.sin z) from
        clamp_of_abs_le (by rw [abs_neg]; exact le_of_lt (lt_of_lt_of_le hth (by norm_num))),
        neg_neg, Real.arcsin_sin hm1.le hm2.le]

/-- Witness for C1's amended theorem at the zero angles in XYZ order. -/
theorem euler_roundtrip_below_threshold_witness :
    Euler.setFromRotationMatrix ⟨0,0,0,.XYZ⟩
      (Matrix4.compose ⟨0,0,0⟩ ⟨0,0,0,.XYZ⟩ ⟨1,1,1⟩) = ⟨0,0,0,.XYZ⟩ :=
  (euler_roundtrip_below_threshold 0 0 0).1
    (by have := Real.pi_pos; linarith)
    (by have := Real.pi_pos; linarith)
    (by rw [Real.sin_zero, abs_zero]; norm_num)
    (by have := Real.pi_pos; linarith)
    (by have := Real.pi_pos; linarith)
    (by have := Real.pi_pos; linarith)
    (by have := Real.pi_pos; linarith)

/-- C1 counterexample: the claim as stated fails.  The Euler input
`(0, arcsin 0.99999995, 1)` in XYZ order has its middle angle strictly
inside `(-π/2, π/2)` and its outer angles inside `(-π, π]`, yet the round
trip through `Quaternion.setFromEuler`/`Matrix4.compose`/
`Euler.setFromRotationMatrix` returns `z = 0`, not the original `z = 1`:
`sin(middle) = 0.99999995` is at or above the `0.9999999` gimbal threshold,
so the pole branch zeroes the third angle. -/
theorem euler_roundtrip_fails_at_claimed_bounds :
    (-(π / 2) < Real.arcsin 0.99999995 ∧ Real.arcsin 0.99999995 < π / 2 ∧
      -π < (0 : ℝ) ∧ (0 : ℝ) ≤ π ∧ -π < (1 : ℝ) ∧ (1 : ℝ) ≤ π) ∧
    (Euler.setFromRotationMatrix ⟨0,0,0,.XYZ⟩
      (Matrix4.compose ⟨0,0,0⟩ ⟨0, Real.arcsin 0.99999995, 1, .XYZ⟩ ⟨1,1,1⟩)).z = 0 ∧
    (0 : ℝ) ≠ 1 := by
  have hpi := Real.pi_gt_three
  refine ⟨⟨?_, ?_, ?_, ?_, ?_, ?_⟩, ?_, by norm_num⟩
  · exact Real.neg_pi_div_two_lt_arcsin.2 (by norm_num)
  · exact Real.arcsin_lt_pi_div_two.2 (by norm_num)
  · linarith
  · linarith
  · linarith
  · linarith
  · simp only [Euler.setFromRotationMatrix]
    rw [m13_XYZ, Real.sin_arcsin (by norm_num) (by norm_num),
      if_neg (by rw [abs_of_nonneg (by norm_num : (0:ℝ) ≤ 0.99999995)]; norm_num)]

/-- C10: the quaternion produced by `Quaternion.setFromEuler` is a unit
quaternion for every Euler input (any angles, any of the 6 orders):
x² + y² + z² + w² = 1 in exact real arithmetic. -/
theorem setFromEuler_unit_norm (e : Euler) :
    (Quaternion.setFromEuler e).x ^ 2 + (Quaternion.setFromEuler e).y ^ 2
      + (Quaternion.setFromEuler e).z ^ 2 + (Quaternion.setFromEuler e).w ^ 2 = 1 := by
  obtain ⟨x, y, z, o⟩ := e
  have h1 := Real.sin_sq_add_cos_sq (x / 2)
  have h2 := Real.sin_sq_add_cos_sq (y / 2)
  have h3 := Real.sin_sq_add_cos_sq (z / 2)
  cases o <;> simp only [Quaternion.setFromEuler] <;>
    linear_combination ((Real.sin (y/2)^2 + Real.cos (y/2)^2)
        * (Real.sin (z/2)^2 + Real.cos (z/2)^2)) * h1
      + (Real.sin (z/2)^2 + Real.cos (z/2)^2) * h2 + h3

lemma invertDet_eq_determinant (m : Matrix4) : m.invertDet = m.determinant := by
  simp only [Matrix4.invertDet, Matrix4.adjugate, Matrix4.determinant]
  ring

lemma scaleElements_multiplyMatrices (a b : Matrix4) (k : ℝ) :
    Matrix4.multiplyMatrices (Matrix4.scaleElements a k) b
      = Matrix4.scaleElements (Matrix4.multiplyMatrices a b) k := by
  simp only [Matrix4.multiplyMatrices, Matrix4.scaleElements]
  congr 1 <;> ring

lemma adjugate_mul_self (m : Matrix4) :
    Matrix4.multiplyMatrices (Matrix4.adjugate m) m
      = Matrix4.scaleElements Matrix4.identity (Matrix4.invertDet m) := by
  simp only [Matrix4.multiplyMatrices, Matrix4.adjugate, Matrix4.identity,
    Matrix4.scaleElements, Matrix4.invertDet]
  congr 1 <;> ring

/-- C2: `Matrix4.invert` on a matrix with determinant exactly zero is a
silent no-op: all 16 stored elements are unchanged and no error is
raised. -/
theorem invert_singular_noop (m : Matrix4) (h : m.determinant = 0) : m.invert = m := by
  simp only [Matrix4.invert]
  rw [if_pos (by rw [invertDet_eq_determinant]; exact h)]

/-- Witness for C2 at the all-zeros matrix. -/
theorem invert_singular_noop_witness :
    (Matrix4.mk 0 0 0 0 0 0 0 0 0 0 0 0 0 0 0 0).invert
      = Matrix4.mk 0 0 0 0 0 0 0 0 0 0 0 0 0 0 0 0 :=
  invert_singular_noop _ (by norm_num [Matrix4.determinant])

/-- C3: for every matrix with non-zero determinant,
`M.clone().invert().multiply(M)` is exactly the identity matrix — `invert`
computes the true inverse by scaling the adjugate by `1/det`. -/
theorem invert_mul_self_eq_identity (m : Matrix4) (h : m.determinant ≠ 0) :
    (m.invert).multiply m = Matrix4.identity := by
  have hne : m.invertDet ≠ 0 := by rwa [invertDet_eq_determinant]
  simp only [Matrix4.invert, Matrix4.multiply]
  rw [if_neg hne, scaleElements_multiplyMatrices, adjugate_mul_self]
  simp only [Matrix4.scaleElements, Matrix4.identity]
  congr 1 <;> field_simp

/-- Witness for C3 at a concrete invertible matrix. -/
theorem invert_mul_self_eq_identity_witness :
    ((Matrix4.mk 2 0 0 0 0 1 0 0 0 0 1 0 0 0 0 1).invert).multiply
      (Matrix4.mk 2 0 0 0 0 1 0 0 0 0 1 0 0 0 0 1) = Matrix4.identity :=
  invert_mul_self_eq_identity _ (by norm_num [Matrix4.determinant])

/-- C5: each of `Matrix4.ortho`, `Matrix4.frustum` and `Matrix4.perspective`
leaves the matrix unchanged (no error) whenever any of its degenerate-input
guards applies: equal clipping bounds, `near <= 0`, `far <= 0`,
`aspect === 0`, or `sin(fov/2) === 0`. -/
theorem projection_guards_noop (m : Matrix4) (l r b t n f fov aspect : ℝ) :
    ((l = r ∨ b = t ∨ n = f) → m.ortho l r b t n f = m) ∧
    ((l = r ∨ t = b ∨ n = f ∨ n ≤ 0 ∨ f ≤ 0) → m.frustum l r b t n f = m) ∧
    ((n = f ∨ aspect = 0 ∨ n ≤ 0 ∨ f ≤ 0 ∨ Real.sin (π * fov / 180 / 2) = 0) →
      m.perspective fov aspect n f = m) := by
  refine ⟨fun h => ?_, fun h => ?_, fun h => ?_⟩
  · simp only [Matrix4.ortho]
    rw [if_pos h]
  · simp only [Matrix4.frustum]
    split_ifs with h1 h2 h3
    · rfl
    · rfl
    · rfl
    · rcases h with h | h | h | h | h
      · exact (h1 (Or.inl h)).elim
      · exact (h1 (Or.inr (Or.inl h))).elim
      · exact (h1 (Or.inr (Or.inr h))).elim
      · exact (h2 h).elim
      · exact (h3 h).elim
  · simp only [Matrix4.perspective]
    split_ifs with h1 h2 h3 h4
    · rfl
    · rfl
    · rfl
    · rfl
    · rcases h with h | h | h | h | h
      · exact (h1 (Or.inl h)).elim
      · exact (h1 (Or.inr h)).elim
      · exact (h2 h).elim
      · exact (h3 h).elim
      · exact (h4 h).elim

/-- Witness for C5: degenerate calls on the identity matrix are no-ops. -/
theorem projection_guards_noop_witness :
    Matrix4.identity.ortho 1 1 0 1 0 1 = Matrix4.identity ∧
    Matrix4.identity.frustum 0 1 0 1 0 1 = Matrix4.identity ∧
    Matrix4.identity.perspective 90 0 1 2 = Matrix4.identity :=
  ⟨(projection_guards_noop Matrix4.identity 1 1 0 1 0 1 90 0).1 (Or.inl rfl),
   (projection_guards_noop Matrix4.identity 0 1 0 1 0 1 90 0).2.1
     (Or.inr (Or.inr (Or.inr (Or.inl le_rfl)))),
   (projection_guards_noop Matrix4.identity 0 1 0 1 1 2 90 0).2.2
     (Or.inr (Or.inl rfl))⟩

/-- C6: the gimbal-lock policy of `Euler.setFromRotationMatrix`.  In XYZ
order, whenever `|m13| >= 0.9999999` the extracted angles satisfy `z = 0`
and `x = atan2(m32, m22)`; and in every order's pole branch the
third-applied angle is forced to 0 (`z` for XYZ/YXZ, `y` for ZXY/XZY, `x`
for ZYX/YZX). -/
theorem setFromRotationMatrix_pole_branch (m : Matrix4) :
    ((0.9999999 : ℝ) ≤ |m.e8| →
      (Euler.setFromRotationMatrix ⟨0,0,0,.XYZ⟩ m).z = 0 ∧
      (Euler.setFromRotationMatrix ⟨0,0,0,.XYZ⟩ m).x = atan2 m.e6 m.e5) ∧
    ((0.9999999 : ℝ) ≤ |m.e9| → (Euler.setFromRotationMatrix ⟨0,0,0,.YXZ⟩ m).z = 0) ∧
    ((0.9999999 : ℝ) ≤ |m.e6| → (Euler.setFromRotationMatrix ⟨0,0,0,.ZXY⟩ m).y = 0) ∧
    ((0.9999999 : ℝ) ≤ |m.e2| → (Euler.setFromRotationMatrix ⟨0,0,0,.ZYX⟩ m).x = 0) ∧
    ((0.9999999 : ℝ) ≤ |m.e1| → (Euler.setFromRotationMatrix ⟨0,0,0,.YZX⟩ m).x = 0) ∧
    ((0.9999999 : ℝ) ≤ |m.e4| → (Euler.setFromRotationMatrix ⟨0,0,0,.XZY⟩ m).y = 0) := by
  refine ⟨fun h => ?_, fun h => ?_, fun h => ?_, fun h => ?_, fun h => ?_, fun h => ?_⟩ <;>
    simp only [Euler.setFromRotationMatrix] <;>
    rw [if_neg (not_lt.2 h)]
  exact ⟨rfl, rfl⟩

/-- Witness for C6 at the rotation matrix of a `y = π/2` rotation
(`m13 = 1`). -/
theorem setFromRotationMatrix_pole_branch_witness :
    (Euler.setFromRotationMatrix ⟨0,0,0,.XYZ⟩
      (Matrix4.mk 0 0 (-1) 0 0 1 0 0 1 0 0 0 0 0 0 1)).z = 0 ∧
    (Euler.setFromRotationMatrix ⟨0,0,0,.XYZ⟩
      (Matrix4.mk 0 0 (-1) 0 0 1 0 0 1 0 0 0 0 0 0 1)).x = atan2 0 1 :=
  (setFromRotationMatrix_pole_branch (Matrix4.mk 0 0 (-1) 0 0 1 0 0 1 0 0 0 0 0 0 1)).1
    (by norm_num)

/-- C9: `unit()` on the zero vector leaves `Vector2` and `Vector3`
unchanged (the zero length is replaced by 1 by the `|| 1` guard, so no
division by zero occurs), whereas `Vector4.unit` has no guard: its length
at the zero vector is 0 and every component is divided by that zero
length. -/
theorem unit_zero_guard_gap :
    Vector2.unit ⟨0, 0⟩ = ⟨0, 0⟩ ∧
    Vector3.unit ⟨0, 0, 0⟩ = ⟨0, 0, 0⟩ ∧
    Vector4.length ⟨0, 0, 0, 0⟩ = 0 ∧
    Vector4.unit ⟨0, 0, 0, 0⟩ = ⟨0 / (0 : ℝ), 0 / (0 : ℝ), 0 / (0 : ℝ), 0 / (0 : ℝ)⟩ := by
  have h2 : Vector2.length ⟨0, 0⟩ = 0 := by
    simp [Vector2.length, Vector2.lengthSquared]
  have h3 : Vector3.length ⟨0, 0, 0⟩ = 0 := by
    simp [Vector3.length, Vector3.lengthSquared]
  have h4 : Vector4.length ⟨0, 0, 0, 0⟩ = 0 := by
    simp [Vector4.length, Vector4.lengthSquare]
  refine ⟨?_, ?_, h4, ?_⟩
  · simp [Vector2.unit, h2]
  · simp [Vector3.unit, h3]
  · simp only [Vector4.unit, h4]

/-- The matrix composed from zero translation, a `y = π/6` rotation (XYZ
order) and uniform scale 2, evaluated in closed form. -/
lemma compose_pi_six_scale_two :
    Matrix4.compose ⟨0,0,0⟩ ⟨0, π/6, 0, .XYZ⟩ ⟨2,2,2⟩
      = Matrix4.mk (Real.sqrt 3) 0 (-1) 0 0 2 0 0 1 0 (Real.sqrt 3) 0 0 0 0 1 := by
  have hp := Real.sin_sq_add_cos_sq (π / 6 / 2)
  have h2 : 2 * Real.sin (π / 6 / 2) * Real.cos (π / 6 / 2) = 1 / 2 := by
    rw [← sin_full]; exact Real.sin_pi_div_six
  have h3 : Real.cos (π / 6 / 2) ^ 2 - Real.sin (π / 6 / 2) ^ 2 = Real.sqrt 3 / 2 := by
    rw [← cos_full]; exact Real.cos_pi_div_six
  simp only [Matrix4.compose, Quaternion.setFromEuler]
  rw [show (0 : ℝ) / 2 = 0 by norm_num, Real.sin_zero, Real.cos_zero]
  congr 1
  case e_e0 => linear_combination 2 * h3 - 2 * hp
  case e_e2 => linear_combination (-2) * h2
  case e_e8 => linear_combination 2 * h2
  case e_e10 => linear_combination 2 * h3 - 2 * hp
  all_goals ring

lemma length_one_zero_sqrt_three : Vector3.length ⟨1, 0, Real.sqrt 3⟩ = 2 := by
  simp only [Vector3.length, Vector3.lengthSquared]
  rw [Real.sq_sqrt (by norm_num : (0:ℝ) ≤ 3),
    show (1:ℝ) ^ 2 + 0 ^ 2 + 3 = 2 ^ 2 by norm_num,
    Real.sqrt_sq (by norm_num : (0:ℝ) ≤ 2)]

/-- C4 is a code bug: `decompose` hands `Euler.setFromRotationMatrix` the
clone `m1` taken *before* the normalization step, so for the matrix
composed from rotation `y = π/6` with uniform scale 2 the extracted Euler
angle is `π/2` (the scaled `m13 = 1` saturates `asin`), while the
conversion on the normalized block described by the spec yields the true
angle `π/6`. -/
theorem decompose_unnormalized_euler_bug :
    ((Matrix4.compose ⟨0,0,0⟩ ⟨0, π/6, 0, .XYZ⟩ ⟨2,2,2⟩).decompose
      ⟨0,0,0,.XYZ⟩).euler.y = π / 2 ∧
    (Matrix4.decomposeEulerSpec (Matrix4.compose ⟨0,0,0⟩ ⟨0, π/6, 0, .XYZ⟩ ⟨2,2,2⟩)
      ⟨0,0,0,.XYZ⟩).y = π / 6 ∧
    π / 2 ≠ π / 6 := by
  refine ⟨?_, ?_, ?_⟩
  · rw [compose_pi_six_scale_two]
    simp only [Matrix4.decompose, Euler.setFromRotationMatrix]
    rw [apply_ite Euler.y, ite_self]
    rw [clamp_of_abs_le (by rw [abs_one])]
    exact Real.arcsin_one
  · rw [compose_pi_six_scale_two]
    simp only [Matrix4.decomposeEulerSpec, Euler.setFromRotationMatrix]
    rw [apply_ite Euler.y, ite_self]
    rw [length_one_zero_sqrt_three]
    rw [clamp_of_abs_le (by rw [abs_of_nonneg (by norm_num : (0:ℝ) ≤ 1/2)]; norm_num)]
    rw [show (1:ℝ)/2 = Real.sin (π/6) by rw [Real.sin_pi_div_six],
      Real.arcsin_sin (by linarith [Real.pi_pos]) (by linarith [Real.pi_pos])]
  · intro hEq
    have := Real.pi_pos
    linarith

lemma sqrt_four : Real.sqrt 4 = 2 := by
  rw [show (4:ℝ) = 2 ^ 2 by norm_num, Real.sqrt_sq (by norm_num : (0:ℝ) ≤ 2)]

lemma unit_zero_two_zero : Vector3.unit ⟨0, 2, 0⟩ = ⟨0, 1, 0⟩ := by
  simp only [Vector3.unit, Vector3.length, Vector3.lengthSquared]
  rw [show (0:ℝ) ^ 2 + 2 ^ 2 + 0 ^ 2 = 4 by norm_num, sqrt_four,
    if_neg (by norm_num : ¬(2:ℝ) = 0)]
  norm_num

/-- C8: `Ray.distanceSqToSegment` for the ray from the origin along +y
against the segment `(1,0,0)-(1,2,0)` goes through the parallel
(`det == 0`) branch and returns squared distance 1, closest point on the
ray `(0,2,0)` and closest point on the segment `(1,2,0)`. -/
theorem distanceSqToSegment_parallel_case :
    Ray.distanceSqToSegment ⟨⟨0,0,0⟩, ⟨0,1,0⟩⟩ ⟨1,0,0⟩ ⟨1,2,0⟩
      = ⟨1, ⟨0,2,0⟩, ⟨1,2,0⟩⟩ ∧
    |1 - -(Vector3.dot ⟨0,1,0⟩ ((Vector3.subtract ⟨1,2,0⟩ ⟨1,0,0⟩).unit))
        * -(Vector3.dot ⟨0,1,0⟩ ((Vector3.subtract ⟨1,2,0⟩ ⟨1,0,0⟩).unit))| = 0 := by
  have hsub : Vector3.subtract ⟨1,2,0⟩ ⟨1,0,0⟩ = (⟨0,2,0⟩ : Vector3) := by
    simp only [Vector3.subtract]
    norm_num
  have hd1 : Vector3.dot ⟨0,1,0⟩ (⟨0,1,0⟩ : Vector3) = 1 := by
    simp only [Vector3.dot]
    norm_num
  constructor
  · have hdist : Vector3.distanceTo ⟨1,0,0⟩ ⟨1,2,0⟩ = 2 := by
      simp only [Vector3.distanceTo, Vector3.distanceToSquared]
      rw [show ((1:ℝ) - 1) ^ 2 + (2 - 0) ^ 2 + (0 - 0) ^ 2 = 4 by norm_num, sqrt_four]
    have hcen : (Vector3.add ⟨1,0,0⟩ ⟨1,2,0⟩).multiplyScalar 0.5 = (⟨1,1,0⟩ : Vector3) := by
      simp only [Vector3.add, Vector3.multiplyScalar]
      norm_num
    have hdiff : Vector3.subtract ⟨0,0,0⟩ ⟨1,1,0⟩ = (⟨-1,-1,0⟩ : Vector3) := by
      simp only [Vector3.subtract]
      norm_num
    have hd2 : Vector3.dot ⟨-1,-1,0⟩ (⟨0,1,0⟩ : Vector3) = -1 := by
      simp only [Vector3.dot]
      norm_num
    have hls : Vector3.lengthSquared ⟨-1,-1,0⟩ = 2 := by
      simp only [Vector3.lengthSquared]
      norm_num
    simp only [Ray.distanceSqToSegment]
    rw [hsub, unit_zero_two_zero, hcen, hdiff, hdist, hd1, hd2, hls]
    norm_num [abs_zero, max_def, Vector3.multiplyScalar, Vector3.add,
      Vector3.mk.injEq, Ray.SegmentDistanceResult.mk.injEq]
  · rw [hsub, unit_zero_two_zero, hd1]
    norm_num

/-- C7: `Ray.intersectBox` returns the nearest intersection point or an
explicit no-intersection result: the ray `(-5,0,0)` along +x against the
box `min(0,-1,-1)`, `max(1,1,1)` hits at `(0,0,0)`; the ray `(-5,0,0)`
along +y against the same box misses; and in general the result is `none`
exactly when one of the two slab-overlap tests fails or the merged far
distance `tmax` is negative. -/
theorem intersectBox_spec :
    Ray.intersectBox ⟨⟨-5,0,0⟩, ⟨1,0,0⟩⟩ ⟨⟨0,-1,-1⟩, ⟨1,1,1⟩⟩ = some ⟨0,0,0⟩ ∧
    Ray.intersectBox ⟨⟨-5,0,0⟩, ⟨0,1,0⟩⟩ ⟨⟨0,-1,-1⟩, ⟨1,1,1⟩⟩ = none ∧
    ∀ (r : Ray) (box : Box3),
      Ray.intersectBox r box = none ↔
        ((JSNum.lt (Ray.tMaxY r box) (Ray.tMinX r box) ∨
          JSNum.lt (Ray.tMaxX r box) (Ray.tMinY r box)) ∨
         (JSNum.lt (Ray.tMaxZ r box) (Ray.tMinXY r box) ∨
          JSNum.lt (Ray.tMaxXY r box) (Ray.tMinZ r box)) ∨
         JSNum.lt (Ray.tMaxXYZ r box) (.fin 0)) := by
  refine ⟨?_, ?_, ?_⟩
  · norm_num [Ray.intersectBox, Ray.tMinX, Ray.tMaxX, Ray.tMinY, Ray.tMaxY,
      Ray.tMinZ, Ray.tMaxZ, Ray.tMinXY, Ray.tMaxXY, Ray.tMinXYZ, Ray.tMaxXYZ,
      Ray.slabLo, Ray.slabHi, JSNum.oneDiv, JSNum.mulFin, JSNum.le, JSNum.lt,
      JSNum.toReal, Ray.atPoint, Vector3.multiplyScalar, Vector3.add,
      Vector3.mk.injEq]
  · norm_num [Ray.intersectBox, Ray.tMinX, Ray.tMaxX, Ray.tMinY, Ray.tMaxY,
      Ray.tMinZ, Ray.tMaxZ, Ray.tMinXY, Ray.tMaxXY, Ray.tMinXYZ, Ray.tMaxXYZ,
      Ray.slabLo, Ray.slabHi, JSNum.oneDiv, JSNum.mulFin, JSNum.le, JSNum.lt,
      JSNum.toReal]
  · intro r box
    simp only [Ray.intersectBox]
    split_ifs with h1 h2 h3 <;> simp_all

end StarryMath
